import Mathlib

/-!
Verification of the shipnative client-side state reconciliation engine.

This file shallowly embeds the TypeScript sources of the repository:

* apps/app/app/types/auth.ts            (isEmailConfirmed, isAuthenticated)
* apps/app/app/stores/auth/authHelpers.ts (updateUserState, syncOnboardingStatus,
                                           fetchOnboardingFromDatabase,
                                           syncOnboardingToDatabase)
* apps/app/app/stores/auth (store)      (setSession, setUser, initialize)
* apps/app/app/utils/rateLimiter.ts     (RateLimiter.isAllowed)
* apps/app/app/utils/subscriptionHelpers.ts (detectLifecycleEvent)
* the deep-linking utility module       (parseDeepLink, validateDeepLinkToken,
                                           handleDeepLink)

JavaScript conventions used throughout the embedding:

* a nullable value is an `Option`;
* JS truthiness of a nullable string is: present and not the empty string;
* JS timestamps / date strings are modelled by their numeric epoch value
  (`Nat`), so date comparison is numeric comparison;
* fallible external calls (the Supabase client, the durable key-value store)
  are modelled by `Except Unit` valued oracle inputs; a `try/catch` in the
  source becomes a `match` on that oracle.
-/

/-- JS truthiness of a nullable string: `undefined`/`null` and the empty
string are falsy, every other string is truthy. -/
def jsTruthy : Option String → Bool
  | none => false
  | some s => s ≠ ""

-- ===========================================================================
-- apps/app/app/types/auth.ts
-- ===========================================================================

/-- One entry of a Supabase user's `identities` array; only the `provider`
field is read by the code under verification. -/
structure UserIdentity where
  provider : Option String
deriving DecidableEq, Repr

/-- The slice of the Supabase `User` object read by the auth store.
`app_metadata.provider` and `app_metadata.providers` are flattened into
top-level fields; `email_confirmed_at` / `confirmed_at` are nullable
timestamp strings (their exact value is never compared, only their
truthiness, so they stay `Option String`). -/
structure AuthUser where
  id : String
  app_metadata_provider : Option String
  app_metadata_providers : Option (List String)
  identities : Option (List UserIdentity)
  email_confirmed_at : Option String
  confirmed_at : Option String
deriving DecidableEq, Repr

/-- Transcription of `isEmailConfirmed` (types/auth.ts, lines 103-117):
a null user is unconfirmed; any OAuth provider evidence (the metadata
provider string, the metadata providers array, or an identity entry, each
compared against the empty string and the literal "email") confirms; else
the truthiness of `email_confirmed_at || confirmed_at` decides. -/
def isEmailConfirmed : Option AuthUser → Bool
  | none => false
  | some user =>
    let provider := (user.app_metadata_provider).getD ""
    let providers := (user.app_metadata_providers).getD []
    let identities := (user.identities).getD []
    let hasOAuthProvider := provider ≠ "" && provider ≠ "email"
    let hasOAuthProviders := providers.any fun entry => entry ≠ "" && entry ≠ "email"
    let hasOAuthIdentity := identities.any fun identity =>
      (identity.provider).getD "" ≠ "" && (identity.provider).getD "" ≠ "email"
    if hasOAuthProvider || hasOAuthProviders || hasOAuthIdentity then true
    else jsTruthy user.email_confirmed_at || jsTruthy user.confirmed_at

/-- The slice of a Supabase `Session` read by the code under verification:
its user and its nullable numeric expiry (seconds since epoch). -/
structure AuthSession where
  user : AuthUser
  expires_at : Option Nat
deriving DecidableEq, Repr

/-- Transcription of `isAuthenticated` (types/auth.ts, lines 82-91): false
for a null session; false when `expires_at` is truthy (present and nonzero,
since the number 0 is falsy in JS) and strictly before `now` (seconds);
true otherwise. -/
def isAuthenticatedSession (session : Option AuthSession) (nowSec : Nat) : Bool :=
  match session with
  | none => false
  | some s =>
    match s.expires_at with
    | some e => if e ≠ 0 && decide (e < nowSec) then false else true
    | none => true

-- ===========================================================================
-- apps/app/app/stores/auth/authHelpers.ts : updateUserState
-- ===========================================================================

/-- The record returned by `updateUserState`. -/
structure UserStateUpdate where
  user : Option AuthUser
  session : Option AuthSession
  isEmailConfirmed : Bool
  isAuthenticated : Bool
deriving DecidableEq, Repr

/-- Transcription of `updateUserState` (authHelpers.ts, lines 193-201):
`isAuthenticated` is the truthiness of the session (`!!session`) conjoined
with the email-confirmation predicate; no expiry check is performed here. -/
def updateUserState (user : Option AuthUser) (session : Option AuthSession) :
    UserStateUpdate :=
  let emailConfirmed := isEmailConfirmed user
  { user := user
    session := session
    isEmailConfirmed := emailConfirmed
    isAuthenticated := session.isSome && emailConfirmed }

-- ===========================================================================
-- apps/app/app/stores/auth (zustand store): state and the set* entry points
-- ===========================================================================

/-- The slice of the zustand auth store state touched by the claims:
identity fields, the derived flags, the loading flag and the per-user
onboarding map (a JS object modelled as an association list). -/
structure AuthStoreState where
  session : Option AuthSession
  user : Option AuthUser
  loading : Bool
  isAuthenticated : Bool
  isEmailConfirmed : Bool
  hasCompletedOnboarding : Bool
  onboardingStatusByUserId : List (String × Bool)
deriving DecidableEq, Repr

/-- JS object indexing `obj[key]`, yielding `undefined` when absent. -/
def assocLookup (m : List (String × Bool)) (key : String) : Option Bool :=
  match m.find? fun p => p.1 = key with
  | some p => some p.2
  | none => none

/-- JS object spread-update: overwrite the value at `key`, or append it. -/
def assocSet (m : List (String × Bool)) (key : String) (v : Bool) :
    List (String × Bool) :=
  match m with
  | [] => [(key, v)]
  | p :: rest => if p.1 = key then (key, v) :: rest else p :: assocSet rest key v

/-- Transcription of the store's `setSession`: the user is taken from the
session (`session?.user ?? null`), `updateUserState` is spread into the
state, and the session field is set. -/
def setSession (st : AuthStoreState) (session : Option AuthSession) :
    AuthStoreState :=
  let user := session.map fun s => s.user
  let stateUpdate := updateUserState user session
  { st with
    user := stateUpdate.user
    session := session
    isEmailConfirmed := stateUpdate.isEmailConfirmed
    isAuthenticated := stateUpdate.isAuthenticated }

/-- Transcription of the store's `setUser`: `updateUserState` is run against
the stored session, and the user field is set. -/
def setUser (st : AuthStoreState) (user : Option AuthUser) : AuthStoreState :=
  let stateUpdate := updateUserState user st.session
  { st with
    user := user
    session := stateUpdate.session
    isEmailConfirmed := stateUpdate.isEmailConfirmed
    isAuthenticated := stateUpdate.isAuthenticated }

-- ===========================================================================
-- apps/app/app/stores/auth/authHelpers.ts : onboarding sync
-- ===========================================================================

/-- The remote `profiles` table as observed through the Supabase query used
by the auth helpers: user id to the nullable `has_completed_onboarding`
column. A missing row, a null column, a query error or a thrown network
error all surface in the source as the fetch resolving to `null`, so they
are all represented by the map answering `none`. -/
def OnboardingDB : Type := String → Option Bool

/-- Transcription of `fetchOnboardingFromDatabase` (authHelpers.ts, lines
97-153): under mock Supabase the fetch is skipped and resolves to null;
otherwise it reports what the remote store answers for the user id (see
`OnboardingDB` for how the error paths, which all `return null`, are
folded into the map). -/
def fetchOnboardingFromDatabase (usingMock : Bool) (db : OnboardingDB)
    (userId : String) : Option Bool :=
  if usingMock then none else db userId

/-- Transcription of `syncOnboardingToDatabase` (authHelpers.ts, lines
19-92): under mock Supabase no write happens; otherwise the upsert sets the
row when it succeeds (`writeOk`) and leaves the store unchanged when the
upsert reports an error or throws (the source logs and returns). -/
def syncOnboardingToDatabase (usingMock writeOk : Bool) (db : OnboardingDB)
    (userId : String) (completed : Bool) : OnboardingDB :=
  if usingMock then db
  else if writeOk then fun k => if k = userId then some completed else db k
  else db

/-- Transcription of `syncOnboardingStatus` (authHelpers.ts, lines 167-180):
remote `true` wins; else a locally completed flag wins and is propagated to
the remote store; else the local flag (false) is returned. Returns the
resolved flag together with the remote store after the call. -/
def syncOnboardingStatus (usingMock writeOk : Bool) (db : OnboardingDB)
    (userId : String) (localStatus : Bool) : Bool × OnboardingDB :=
  let dbStatus := fetchOnboardingFromDatabase usingMock db userId
  if dbStatus = some true then (true, db)
  else if localStatus then (true, syncOnboardingToDatabase usingMock writeOk db userId true)
  else (localStatus, db)

-- ===========================================================================
-- apps/app/app/utils/rateLimiter.ts : RateLimiter.isAllowed
-- ===========================================================================

/-- A stored rate-limit entry (rateLimiter.ts, lines 15-18). -/
structure RateLimitEntry where
  count : Nat
  resetAt : Nat
deriving DecidableEq, Repr

/-- The rate-limiter configuration (rateLimiter.ts, lines 20-24); the
storage key computation is not modelled, the embedding works per
identifier. -/
structure RateLimitConfig where
  maxAttempts : Nat
  windowMs : Nat
deriving DecidableEq, Repr

/-- Transcription of the storage-success path of `RateLimiter.isAllowed`
(rateLimiter.ts, lines 53-78): no entry or an expired window creates a
fresh entry with count 1 and allows; a count at or above the maximum denies
without saving; otherwise the count is incremented, saved, and the call is
allowed. Returns the result and the stored entry after the call. -/
def isAllowedStep (cfg : RateLimitConfig) (stored : Option RateLimitEntry)
    (now : Nat) : Bool × Option RateLimitEntry :=
  match stored with
  | none => (true, some { count := 1, resetAt := now + cfg.windowMs })
  | some entry =>
    if now ≥ entry.resetAt then
      (true, some { count := 1, resetAt := now + cfg.windowMs })
    else if entry.count ≥ cfg.maxAttempts then (false, some entry)
    else (true, some { entry with count := entry.count + 1 })

/-- The durable key-value store as observed by one `isAllowed` call: what
the load returns (or that it throws), and whether a save attempt throws. -/
structure StorageBehavior where
  loadResult : Except Unit (Option RateLimitEntry)
  saveThrows : Bool
deriving Repr

/-- Transcription of `RateLimiter.isAllowed` (rateLimiter.ts, lines 53-90)
with its fallible storage collaborator explicit: any storage exception
(load or save) lands in the catch handler, which allows the request (fail
open). -/
def isAllowedCaught (cfg : RateLimitConfig) (b : StorageBehavior) (now : Nat) :
    Bool :=
  match b.loadResult with
  | Except.error _ => true
  | Except.ok stored =>
    match stored with
    | none => true
    | some entry =>
      if now ≥ entry.resetAt then true
      else if entry.count ≥ cfg.maxAttempts then false
      else true

/-- Running a sequence of `isAllowed` calls (all storage operations
succeeding) at the given call times, threading the stored entry. Returns
the list of results and the final stored entry. -/
def runAllowedCalls (cfg : RateLimitConfig) (stored : Option RateLimitEntry) :
    List Nat → List Bool × Option RateLimitEntry
  | [] => ([], stored)
  | t :: ts =>
    let r := isAllowedStep cfg stored t
    let rest := runAllowedCalls cfg r.2 ts
    (r.1 :: rest.1, rest.2)

-- ===========================================================================
-- apps/app/app/stores/auth (zustand store): initialize
-- ===========================================================================

/-- Modelled from the spec: the identity-key helper `getUserKey` and the
sentinel guest key live in `stores/auth/authConstants.ts`, which is not
among the provided sources. Section 3 of the spec describes the onboarding
map as "a per-identity boolean keyed by a stable identity key (a sentinel
guest key is used when no identity exists)", so the key of a present user
is its id and the absent user maps to the guest sentinel. -/
def getUserKey : Option AuthUser → String
  | some user => user.id
  | none => "guest"

/-- The behavior of the identity provider and the remote store during one
`initialize()` call: the outcome of `supabase.auth.getSession()`, of
`supabase.auth.getUser()`, of registering the auth-state-change listener,
whether the mock Supabase client is in use, and whether the onboarding
upsert succeeds. -/
structure ProviderBehavior where
  getSession : Except Unit (Option AuthSession)
  getUser : Except Unit (Option AuthUser)
  subscribeOutcome : Except Unit Unit
  usingMock : Bool
  writeOk : Bool

/-- The outcome of one `initialize()` call (or of a sequence of them): the
store state, the remote onboarding store, the module-level
`authStateSubscription` guard (as a boolean: a subscription is held), and
how many listener registrations were performed. -/
structure InitOutcome where
  store : AuthStoreState
  db : OnboardingDB
  subscribed : Bool
  registrations : Nat

/-- Transcription of the store's `initialize` (auth store source, lines
350-485). `set loading true`; get the session (a rejection lands in the
outer catch, which logs and sets loading false); resolve the user from the
session or, failing that, from `getUser`, preserving the stored user when
that inner call throws; resolve onboarding through `syncOnboardingStatus`
when a real-Supabase user is present; recompute the derived flags via
`updateUserState` and the `shouldAuthenticate` conjunction; write the full
composite state with loading false; finally register the auth-state-change
listener only when the module-level guard is empty (a throw while
registering lands in the outer catch and leaves the guard empty). -/
def initImpl (b : ProviderBehavior) (st0 : AuthStoreState)
    (db : OnboardingDB) (subscribed : Bool) : InitOutcome :=
  let st := { st0 with loading := true }
  match b.getSession with
  | Except.error _ =>
    { store := { st with loading := false }, db := db
      subscribed := subscribed, registrations := 0 }
  | Except.ok session =>
    let user : Option AuthUser :=
      match session with
      | some s => some s.user
      | none =>
        match b.getUser with
        | Except.ok fetched => fetched
        | Except.error _ => st.user
    let userKey := getUserKey user
    let localOnboardingCompleted := (assocLookup st.onboardingStatusByUserId userKey).getD false
    let synced : Bool × OnboardingDB :=
      match user with
      | some u =>
        if !b.usingMock then
          syncOnboardingStatus b.usingMock b.writeOk db u.id localOnboardingCompleted
        else (localOnboardingCompleted, db)
      | none => (localOnboardingCompleted, db)
    let hasCompletedOnboarding := synced.1
    let emailConfirmed := isEmailConfirmed user
    let shouldAuthenticate := session.isSome && emailConfirmed
    let stateUpdate := updateUserState user session
    let st2 : AuthStoreState :=
      { st with
        user := stateUpdate.user
        session := session
        isEmailConfirmed := stateUpdate.isEmailConfirmed
        isAuthenticated := shouldAuthenticate
        hasCompletedOnboarding := hasCompletedOnboarding
        onboardingStatusByUserId :=
          assocSet st.onboardingStatusByUserId userKey hasCompletedOnboarding
        loading := false }
    if subscribed then
      { store := st2, db := synced.2, subscribed := true, registrations := 0 }
    else
      match b.subscribeOutcome with
      | Except.ok _ =>
        { store := st2, db := synced.2, subscribed := true, registrations := 1 }
      | Except.error _ =>
        { store := { st2 with loading := false }, db := synced.2
          subscribed := subscribed, registrations := 0 }

/-- A sequence of `initialize()` calls with per-call provider behaviors,
threading the store, the remote onboarding store and the module-level
subscription guard, and summing the listener registrations. -/
def runInits (bs : List ProviderBehavior) (st : AuthStoreState)
    (db : OnboardingDB) (subscribed : Bool) : InitOutcome :=
  match bs with
  | [] => { store := st, db := db, subscribed := subscribed, registrations := 0 }
  | b :: rest =>
    let o := initImpl b st db subscribed
    let rest' := runInits rest o.store o.db o.subscribed
    { rest' with registrations := o.registrations + rest'.registrations }

-- ===========================================================================
-- apps/app/app/utils/subscriptionHelpers.ts : detectLifecycleEvent
-- ===========================================================================

/-- The entitlement snapshot fields read by the lifecycle detector
(types/subscription is not among the provided sources; the fields are the
ones the detector dereferences, with the spec's Entitlement Snapshot shape:
status flags, nullable product id, nullable expiration, nullable
billing-issue timestamp). Dates are modelled by their epoch value. -/
structure SubscriptionInfo where
  isActive : Bool
  isTrial : Bool
  willRenew : Bool
  productId : Option String
  expirationDate : Option Nat
  billingIssueDetectedAt : Option Nat
deriving DecidableEq, Repr

/-- The ten lifecycle event kinds (types/subscription union). -/
inductive LifecycleEventKind where
  | trial_started
  | trial_converted
  | trial_cancelled
  | subscription_started
  | subscription_renewed
  | subscription_cancelled
  | subscription_expired
  | subscription_paused
  | subscription_restored
  | billing_issue
deriving DecidableEq, Repr

/-- The payload returned by `detectLifecycleEvent`; `timestamp` is the
`new Date().toISOString()` value, supplied to the embedding as `now`. -/
structure SubscriptionLifecycleData where
  event : LifecycleEventKind
  timestamp : String
  productId : Option String
  expirationDate : Option Nat
deriving DecidableEq, Repr

/-- Transcription of `detectLifecycleEvent` (subscriptionHelpers.ts, lines
150-252): the if-chain in source order. The truthiness guards on
`expirationDate` and `billingIssueDetectedAt` are presence checks (see
`SubscriptionInfo`), and the `new Date` comparison is numeric. -/
def detectLifecycleEvent (now : String) (oldInfo : Option SubscriptionInfo)
    (newInfo : SubscriptionInfo) : Option SubscriptionLifecycleData :=
  match oldInfo with
  | none =>
    if newInfo.isActive && newInfo.isTrial then
      some { event := LifecycleEventKind.trial_started, timestamp := now
             productId := newInfo.productId, expirationDate := newInfo.expirationDate }
    else if newInfo.isActive && !newInfo.isTrial then
      some { event := LifecycleEventKind.subscription_started, timestamp := now
             productId := newInfo.productId, expirationDate := newInfo.expirationDate }
    else none
  | some oldI =>
    if oldI.isTrial && !newInfo.isTrial && newInfo.isActive then
      some { event := LifecycleEventKind.trial_converted, timestamp := now
             productId := newInfo.productId, expirationDate := newInfo.expirationDate }
    else if oldI.isTrial && oldI.isActive && !newInfo.isActive then
      some { event := LifecycleEventKind.trial_cancelled, timestamp := now
             productId := oldI.productId, expirationDate := newInfo.expirationDate }
    else if oldI.isActive && newInfo.isActive &&
        (match oldI.expirationDate, newInfo.expirationDate with
         | some oldE, some newE => decide (oldE < newE)
         | _, _ => false) then
      some { event := LifecycleEventKind.subscription_renewed, timestamp := now
             productId := newInfo.productId, expirationDate := newInfo.expirationDate }
    else if oldI.willRenew && !newInfo.willRenew && newInfo.isActive then
      some { event := LifecycleEventKind.subscription_cancelled, timestamp := now
             productId := newInfo.productId, expirationDate := newInfo.expirationDate }
    else if oldI.isActive && !newInfo.isActive && !newInfo.willRenew then
      some { event := LifecycleEventKind.subscription_expired, timestamp := now
             productId := oldI.productId, expirationDate := newInfo.expirationDate }
    else if !oldI.billingIssueDetectedAt.isSome && newInfo.billingIssueDetectedAt.isSome then
      some { event := LifecycleEventKind.billing_issue, timestamp := now
             productId := newInfo.productId, expirationDate := newInfo.expirationDate }
    else if !oldI.isActive && newInfo.isActive then
      some { event := LifecycleEventKind.subscription_restored, timestamp := now
             productId := newInfo.productId, expirationDate := newInfo.expirationDate }
    else none

/-- The nine transition predicates exactly as the claim words them, indexed
1 to 9; predicates 3 to 9 speak about the previous snapshot and are false
when there is none. -/
def transitionPredicate (i : Nat) (previous : Option SubscriptionInfo)
    (current : SubscriptionInfo) : Bool :=
  match i with
  | 1 => previous.isNone && current.isActive && current.isTrial
  | 2 => previous.isNone && current.isActive && !current.isTrial
  | 3 =>
    match previous with
    | some p => p.isTrial && !current.isTrial && current.isActive
    | none => false
  | 4 =>
    match previous with
    | some p => p.isTrial && p.isActive && !current.isActive
    | none => false
  | 5 =>
    match previous with
    | some p =>
      p.isActive && current.isActive &&
        (match p.expirationDate, current.expirationDate with
         | some oldE, some newE => decide (oldE < newE)
         | _, _ => false)
    | none => false
  | 6 =>
    match previous with
    | some p => p.willRenew && !current.willRenew && current.isActive
    | none => false
  | 7 =>
    match previous with
    | some p => p.isActive && !current.isActive && !current.willRenew
    | none => false
  | 8 =>
    match previous with
    | some p => !p.billingIssueDetectedAt.isSome && current.billingIssueDetectedAt.isSome
    | none => false
  | 9 =>
    match previous with
    | some p => !p.isActive && current.isActive
    | none => false
  | _ => false

/-- The event the claim assigns to each of the nine predicates. -/
def transitionEvent (i : Nat) : Option LifecycleEventKind :=
  match i with
  | 1 => some LifecycleEventKind.trial_started
  | 2 => some LifecycleEventKind.subscription_started
  | 3 => some LifecycleEventKind.trial_converted
  | 4 => some LifecycleEventKind.trial_cancelled
  | 5 => some LifecycleEventKind.subscription_renewed
  | 6 => some LifecycleEventKind.subscription_cancelled
  | 7 => some LifecycleEventKind.subscription_expired
  | 8 => some LifecycleEventKind.billing_issue
  | 9 => some LifecycleEventKind.subscription_restored
  | _ => none

/-- The claim's detector: the nine predicates evaluated in the fixed
priority order 1..9, the first match wins, null when none match. -/
def detectEventSpec (previous : Option SubscriptionInfo)
    (current : SubscriptionInfo) : Option LifecycleEventKind :=
  if transitionPredicate 1 previous current then transitionEvent 1
  else if transitionPredicate 2 previous current then transitionEvent 2
  else if transitionPredicate 3 previous current then transitionEvent 3
  else if transitionPredicate 4 previous current then transitionEvent 4
  else if transitionPredicate 5 previous current then transitionEvent 5
  else if transitionPredicate 6 previous current then transitionEvent 6
  else if transitionPredicate 7 previous current then transitionEvent 7
  else if transitionPredicate 8 previous current then transitionEvent 8
  else if transitionPredicate 9 previous current then transitionEvent 9
  else none

-- ===========================================================================
-- Deep linking utility module (parseDeepLink / validateDeepLinkToken /
-- handleDeepLink). The URL constructor comes from react-native-url-polyfill
-- (imported app-wide in services/supabase.ts), a WHATWG URL implementation.
-- ===========================================================================

/-- The components of a parsed URL that the deep-link module reads:
`protocol` (scheme plus the trailing colon), `host`, `pathname` and the raw
query string (without the leading question mark). -/
structure URLParts where
  protocol : String
  host : String
  pathname : String
  search : String
deriving DecidableEq, Repr

/-- Scheme start: an ASCII letter (WHATWG scheme start state). -/
def isSchemeStartChar (c : Char) : Bool := c.isAlpha

/-- Scheme continuation: ASCII alphanumeric, plus, minus or dot. -/
def isSchemeChar (c : Char) : Bool :=
  c.isAlphanum || c = '+' || c = '-' || c = '.'

/-- Model of the WHATWG `new URL` constructor (react-native-url-polyfill)
on the fragment of inputs the deep-link module handles: an absolute URL
without percent-escapes. The load-bearing behavior for a custom
(non-special) scheme: the characters after "//" up to the next "/", "?" or
"#" are the HOST, so in an URL of the shape scheme://name?query the name
lands in `host` and `pathname` is empty. An input with no valid scheme
makes the constructor throw, modelled by `none`. -/
def urlParse (url : String) : Option URLParts :=
  match url.toList with
  | [] => none
  | c :: _ =>
    if !isSchemeStartChar c then none
    else
      let s := url.toList
      let schemeChars := s.takeWhile isSchemeChar
      let rest0 := s.drop schemeChars.length
      match rest0 with
      | ':' :: rest =>
        let protocol := String.mk (schemeChars.map Char.toLower) ++ ":"
        let hostAndRest :=
          match rest with
          | '/' :: '/' :: r =>
            let h := r.takeWhile fun ch => ch ≠ '/' && ch ≠ '?' && ch ≠ '#'
            (String.mk h, r.drop h.length)
          | _ => ("", rest)
        let pathChars := hostAndRest.2.takeWhile fun ch => ch ≠ '?' && ch ≠ '#'
        let afterPath := hostAndRest.2.drop pathChars.length
        let search :=
          match afterPath with
          | '?' :: q => String.mk (q.takeWhile fun ch => ch ≠ '#')
          | _ => ""
        some { protocol := protocol, host := hostAndRest.1
               pathname := String.mk pathChars, search := search }
      | _ => none

/-- JS object insert-or-overwrite for the string parameter map built by
the `searchParams.forEach` loop. -/
def paramSet (ps : List (String × String)) (k v : String) :
    List (String × String) :=
  match ps with
  | [] => [(k, v)]
  | p :: rest => if p.1 = k then (k, v) :: rest else p :: paramSet rest k v

/-- Split a character list on a separator character; mirrors the string
split used by the query and pathname handling (structural recursion so
concrete inputs evaluate inside proofs). -/
def splitOnChar (sep : Char) : List Char → List (List Char)
  | [] => [[]]
  | x :: xs =>
    match splitOnChar sep xs with
    | [] => [[]]
    | grp :: rest => if x = sep then [] :: grp :: rest else (x :: grp) :: rest

/-- URLSearchParams iteration over a raw query string (no percent-escapes):
split on ampersands, skip empty pieces, split each piece at the first
equals sign (a piece without one maps to the empty value). -/
def parseQueryPairs (search : String) : List (String × String) :=
  ((splitOnChar '&' search.toList).filter fun piece => piece ≠ []).foldl
    (fun acc piece =>
      let k := piece.takeWhile fun ch => ch ≠ '='
      let value :=
        match piece.drop k.length with
        | '=' :: v => v
        | _ => []
      paramSet acc (String.mk k) (String.mk value))
    []

/-- JS map lookup `params[k]`. -/
def paramGet (ps : List (String × String)) (k : String) : Option String :=
  match ps.find? fun p => p.1 = k with
  | some p => some p.2
  | none => none

/-- The registered deep link scheme. -/
def DEEP_LINK_SCHEME : String := "shipnative"

/-- The slash-join of the remaining path segments
(`pathParts.slice(1).join("/")` in the source). -/
def joinSlash : List String → String
  | [] => ""
  | [s] => s
  | s :: rest => s ++ "/" ++ joinSlash rest

/-- The record returned by `parseDeepLink`: all three fields are optional
(`path` and `params` are dropped when empty, `screen` is the first
pathname segment when there is one). -/
structure ParsedDeepLink where
  screen : Option String
  path : Option String
  params : Option (List (String × String))
deriving DecidableEq, Repr

/-- Transcription of `parseDeepLink` (deep-linking module, lines 223-256):
parse the URL (a constructor throw is caught and yields null); a protocol
other than the registered scheme yields null; the pathname is split on
slashes and filtered of empty segments, the first segment becoming the
screen and the rest the path; the query becomes the parameter map. -/
def parseDeepLink (url : String) : Option ParsedDeepLink :=
  match urlParse url with
  | none => none
  | some parsedUrl =>
    if parsedUrl.protocol ≠ DEEP_LINK_SCHEME ++ ":" then none
    else
      let pathParts :=
        ((splitOnChar '/' parsedUrl.pathname.toList).map String.mk).filter
          fun part => part ≠ ""
      let screen := pathParts.head?
      let path := joinSlash (pathParts.drop 1)
      let params := parseQueryPairs parsedUrl.search
      some { screen := screen
             path := if path = "" then none else some path
             params := if params = [] then none else some params }

/-- Transcription of `validateDeepLinkToken` (deep-linking module, lines
266-299): a falsy token is invalid; a screen other than the two sensitive
ones is valid; the sensitive screens require a token length strictly
between 10 and 1000 (string length in characters, which for the
escape-free tokens modelled here agrees with the JS length). -/
def validateDeepLinkToken (screen : String) (token : Option String) : Bool :=
  if !jsTruthy token then false
  else if screen ≠ "reset-password" && screen ≠ "verify-email" then true
  else
    let t := token.getD ""
    if screen = "reset-password" then
      decide (10 < t.length) && decide (t.length < 1000)
    else if screen = "verify-email" then
      decide (10 < t.length) && decide (t.length < 1000)
    else false

/-- The record returned by `handleDeepLink`. -/
structure HandledDeepLink where
  screen : String
  params : Option (List (String × String))
deriving DecidableEq, Repr

/-- Transcription of `handleDeepLink` (deep-linking module, lines 306-344):
null when parsing failed or the screen is falsy; when the parameter map
holds a truthy `token` entry the structural validation gates navigation
(an invalid token yields null); otherwise the parsed screen and parameters
are returned for navigation. -/
def handleDeepLink (url : String) : Option HandledDeepLink :=
  match parseDeepLink url with
  | none => none
  | some parsed =>
    match parsed.screen with
    | none => none
    | some screen =>
      if screen = "" then none
      else
        let tokenVal :=
          match parsed.params with
          | some ps => paramGet ps "token"
          | none => none
        if jsTruthy tokenVal then
          if validateDeepLinkToken screen tokenVal then
            some { screen := screen, params := parsed.params }
          else none
        else some { screen := screen, params := parsed.params }

-- ===========================================================================
-- Theorems
-- ===========================================================================

/-- A user whose email is confirmed (timestamp set, no OAuth evidence). -/
def confirmedEmailUser : AuthUser :=
  { id := "user-1"
    app_metadata_provider := some "email"
    app_metadata_providers := some ["email"]
    identities := some [{ provider := some "email" }]
    email_confirmed_at := some "2024-01-01T00:00:00Z"
    confirmed_at := none }

/-- A user whose email is not confirmed (no timestamps, no OAuth). -/
def unconfirmedEmailUser : AuthUser :=
  { id := "user-2"
    app_metadata_provider := some "email"
    app_metadata_providers := some ["email"]
    identities := some [{ provider := some "email" }]
    email_confirmed_at := none
    confirmed_at := none }

/-- A session that expired at epoch second 1 (long before the sample
observation time 1700000000). -/
def expiredSession : AuthSession :=
  { user := confirmedEmailUser, expires_at := some 1 }

/-- Claim C1, counterexample: at the concrete input of a confirmed-email
user together with a session that is already expired, `updateUserState`
reports `isAuthenticated = true` although no non-expired session exists
(the source's own session-expiry predicate rejects it), so the flag does
not hold iff a non-expired session exists and the email is confirmed. -/
theorem updateUserState_ignores_expiry_counterexample :
    ¬(((updateUserState (some confirmedEmailUser) (some expiredSession)).isAuthenticated
        = true) ↔
      (isAuthenticatedSession (some expiredSession) 1700000000 = true ∧
        isEmailConfirmed (some confirmedEmailUser) = true)) := by
  decide

/-- Claim C1 (amended): for every user and session value passed through
the state-update entry points (`updateUserState`, and hence `setSession`
and `setUser`), the resulting `isAuthenticated` flag holds iff a session
value is present AND the email-confirmed predicate holds for the user;
session expiry is not consulted by these entry points. In particular a
state with a session but an unconfirmed email has
`isAuthenticated = false`. -/
theorem updateUserState_authenticated_iff_session_and_confirmed :
    (∀ user session, (updateUserState user session).isAuthenticated =
      (session.isSome && isEmailConfirmed user)) ∧
    (∀ user session, isEmailConfirmed user = false →
      (updateUserState user session).isAuthenticated = false) ∧
    (∀ st session, (setSession st session).isAuthenticated =
      (session.isSome && isEmailConfirmed (session.map fun s => s.user))) ∧
    (∀ st user, (setUser st user).isAuthenticated =
      (st.session.isSome && isEmailConfirmed user)) := by
  refine ⟨fun user session => rfl, fun user session h => ?_,
    fun st session => rfl, fun st user => rfl⟩
  simp [updateUserState, h]

/-- Witness for the amended claim C1 at a concrete input: a session is
present but the email is unconfirmed, and the state is unauthenticated. -/
theorem updateUserState_authenticated_iff_witness :
    (updateUserState (some unconfirmedEmailUser)
      (some { user := unconfirmedEmailUser, expires_at := some 1700000000 })).isAuthenticated
      = false :=
  updateUserState_authenticated_iff_session_and_confirmed.2.1
    (some unconfirmedEmailUser)
    (some { user := unconfirmedEmailUser, expires_at := some 1700000000 })
    (by decide)

/-- Claim C2: for every pair of entitlement snapshots,
`detectLifecycleEvent` returns at most one event, chosen by evaluating the
nine transition predicates in the claimed fixed priority order and
returning the first match (null if none match); in particular, when both
snapshots are active non-trial snapshots, the expiration extends, and a
billing issue also newly appears, the renewal is reported (renewal is
checked before billing-issue). -/
theorem detectLifecycleEvent_first_match_priority :
    (∀ (now : String) (previous : Option SubscriptionInfo)
        (current : SubscriptionInfo),
      (detectLifecycleEvent now previous current).map (fun d => d.event) =
        detectEventSpec previous current) ∧
    (∀ (now : String) (p current : SubscriptionInfo) (oldE newE : Nat),
      p.isActive = true → current.isActive = true →
      p.isTrial = false → current.isTrial = false →
      p.expirationDate = some oldE → current.expirationDate = some newE →
      oldE < newE →
      p.billingIssueDetectedAt = none →
      current.billingIssueDetectedAt.isSome = true →
      (detectLifecycleEvent now (some p) current).map (fun d => d.event) =
        some LifecycleEventKind.subscription_renewed) := by
  constructor
  · intro now previous current
    cases previous with
    | none =>
      simp only [detectLifecycleEvent, detectEventSpec, transitionPredicate,
        transitionEvent, Option.isNone, Bool.true_and, Bool.false_and,
        Bool.and_false, if_false, if_true, Bool.not_true, Bool.not_false]
      split_ifs <;> simp_all
    | some p =>
      simp only [detectLifecycleEvent, detectEventSpec, transitionPredicate,
        transitionEvent, Option.isNone, Bool.true_and, Bool.false_and,
        Bool.and_false, if_false, if_true, Bool.not_true, Bool.not_false]
      split_ifs <;> simp_all
  · intro now p current oldE newE hpA hcA hpT hcT hpE hcE hlt hpB hcB
    simp [detectLifecycleEvent, hpA, hcA, hpT, hcT, hpE, hcE, hlt, hpB, hcB]

/-- Witness for claim C2 at concrete snapshots: an active paid
subscription whose expiration moves from 100 to 200 while a billing issue
appears is reported as a renewal. -/
theorem detectLifecycleEvent_first_match_priority_witness :
    (detectLifecycleEvent "2024-01-01T00:00:00Z"
        (some { isActive := true, isTrial := false, willRenew := true
                productId := some "pro", expirationDate := some 100
                billingIssueDetectedAt := none })
        { isActive := true, isTrial := false, willRenew := true
          productId := some "pro", expirationDate := some 200
          billingIssueDetectedAt := some 150 }).map (fun d => d.event) =
      some LifecycleEventKind.subscription_renewed :=
  detectLifecycleEvent_first_match_priority.2 "2024-01-01T00:00:00Z"
    { isActive := true, isTrial := false, willRenew := true
      productId := some "pro", expirationDate := some 100
      billingIssueDetectedAt := none }
    { isActive := true, isTrial := false, willRenew := true
      productId := some "pro", expirationDate := some 200
      billingIssueDetectedAt := some 150 }
    100 200 rfl rfl rfl rfl rfl rfl (by decide) rfl rfl

/-- Claim C3: against the real (non-mock) Supabase client,
`syncOnboardingStatus` returns true when the remote store reports complete
(remote wins), and then leaves the remote row untouched; otherwise a true
local flag yields true and (when the upsert succeeds) writes complete to
the remote store; otherwise the local flag (false) is returned.
Consequently, once the remote store reports true for an identity, a call
with a false local flag for that identity still returns true and the row
stays complete, so no subsequent call can observe false. -/
theorem syncOnboardingStatus_remote_wins_then_local_wins :
    (∀ (writeOk : Bool) (db : OnboardingDB) (userId : String) (localStatus : Bool),
      db userId = some true →
      (syncOnboardingStatus false writeOk db userId localStatus).1 = true ∧
      (syncOnboardingStatus false writeOk db userId localStatus).2 userId = some true) ∧
    (∀ (writeOk : Bool) (db : OnboardingDB) (userId : String),
      (syncOnboardingStatus false writeOk db userId true).1 = true ∧
      (writeOk = true →
        (syncOnboardingStatus false writeOk db userId true).2 userId = some true)) ∧
    (∀ (writeOk : Bool) (db : OnboardingDB) (userId : String),
      db userId ≠ some true →
      (syncOnboardingStatus false writeOk db userId false).1 = false) := by
  refine ⟨fun writeOk db userId localStatus h => ?_, fun writeOk db userId => ?_,
    fun writeOk db userId h => ?_⟩
  · simp [syncOnboardingStatus, fetchOnboardingFromDatabase, h]
  · by_cases h : db userId = some true
    · simp [syncOnboardingStatus, fetchOnboardingFromDatabase, h]
    · constructor
      · simp [syncOnboardingStatus, fetchOnboardingFromDatabase, h]
      · intro hw
        simp [syncOnboardingStatus, fetchOnboardingFromDatabase,
          syncOnboardingToDatabase, h, hw]
  · simp [syncOnboardingStatus, fetchOnboardingFromDatabase, h]

/-- Witness for claim C3 at a concrete remote store: the row for user u1
reports complete, so a call with a false local flag resolves to true and
the row stays complete; a fresh user u2 with a true local flag resolves to
true and the row is written. -/
theorem syncOnboardingStatus_remote_wins_witness :
    ((syncOnboardingStatus false true
        (fun u => if u = "u1" then some true else none) "u1" false).1 = true ∧
      (syncOnboardingStatus false true
        (fun u => if u = "u1" then some true else none) "u1" false).2 "u1" = some true) ∧
    (syncOnboardingStatus false true
        (fun u => if u = "u1" then some true else none) "u2" true).2 "u2" = some true :=
  ⟨syncOnboardingStatus_remote_wins_then_local_wins.1 true
      (fun u => if u = "u1" then some true else none) "u1" false (by decide),
    (syncOnboardingStatus_remote_wins_then_local_wins.2.1 true
      (fun u => if u = "u1" then some true else none) "u2").2 rfl⟩

/-- One `isAllowed` call as a pair: unfolding of `runAllowedCalls` on a
cons cell. -/
theorem runAllowedCalls_cons (cfg : RateLimitConfig) (st : Option RateLimitEntry)
    (t : Nat) (ts : List Nat) :
    runAllowedCalls cfg st (t :: ts) =
      ((isAllowedStep cfg st t).1 ::
          (runAllowedCalls cfg (isAllowedStep cfg st t).2 ts).1,
        (runAllowedCalls cfg (isAllowedStep cfg st t).2 ts).2) := rfl

/-- An in-window call below the maximum increments the count and allows. -/
theorem isAllowedStep_increment (cfg : RateLimitConfig) (c r now : Nat)
    (h1 : now < r) (h2 : c < cfg.maxAttempts) :
    isAllowedStep cfg (some { count := c, resetAt := r }) now =
      (true, some { count := c + 1, resetAt := r }) := by
  simp only [isAllowedStep]
  rw [if_neg (by omega), if_neg (by omega)]

/-- An in-window call at or above the maximum denies and stores nothing. -/
theorem isAllowedStep_deny (cfg : RateLimitConfig) (c r now : Nat)
    (h1 : now < r) (h2 : cfg.maxAttempts ≤ c) :
    isAllowedStep cfg (some { count := c, resetAt := r }) now =
      (false, some { count := c, resetAt := r }) := by
  simp only [isAllowedStep]
  rw [if_neg (by omega), if_pos (by omega)]

/-- From a stored count `c`, a window of in-window calls that overshoots
the maximum by exactly one yields all-true results followed by one false. -/
theorem runAllowedCalls_denies_after_max (cfg : RateLimitConfig) :
    ∀ (ts : List Nat) (c r : Nat), (∀ t ∈ ts, t < r) →
      c + ts.length = cfg.maxAttempts + 1 → 1 ≤ ts.length →
      (runAllowedCalls cfg (some { count := c, resetAt := r }) ts).1 =
        List.replicate (ts.length - 1) true ++ [false] := by
  intro ts
  induction ts with
  | nil => intro c r _ _ hlen; simp at hlen
  | cons t ts ih =>
    intro c r hmem hcount _
    cases ts with
    | nil =>
      have hc : c = cfg.maxAttempts := by simpa using hcount
      have ht : t < r := hmem t (by simp)
      rw [runAllowedCalls_cons, isAllowedStep_deny cfg c r t ht (by omega)]
      simp [runAllowedCalls]
    | cons t2 ts2 =>
      have hc : c < cfg.maxAttempts := by
        simp [List.length] at hcount; omega
      have ht : t < r := hmem t (by simp)
      have ihr := ih (c + 1) r (fun x hx => hmem x (by simp [hx]))
        (by simp [List.length] at hcount ⊢; omega) (by simp)
      rw [runAllowedCalls_cons, isAllowedStep_increment cfg c r t ht hc]
      simp only [ihr]
      simp [List.replicate_succ]

/-- Claim C4: starting with no stored entry, exactly `maxAttempts`
consecutive calls inside the window created by the first call return true
and the next call returns false; a denied in-window call leaves the stored
count and window-reset timestamp unchanged; and a call at or past the
reset timestamp returns true and resets the counter to 1 with a fresh
window. -/
theorem isAllowed_window_exactly_max_attempts :
    (∀ (cfg : RateLimitConfig) (t0 : Nat) (rest : List Nat),
      1 ≤ cfg.maxAttempts →
      (∀ t ∈ rest, t < t0 + cfg.windowMs) →
      rest.length = cfg.maxAttempts →
      (runAllowedCalls cfg none (t0 :: rest)).1 =
        List.replicate cfg.maxAttempts true ++ [false]) ∧
    (∀ (cfg : RateLimitConfig) (entry : RateLimitEntry) (now : Nat),
      now < entry.resetAt → cfg.maxAttempts ≤ entry.count →
      isAllowedStep cfg (some entry) now = (false, some entry)) ∧
    (∀ (cfg : RateLimitConfig) (entry : RateLimitEntry) (now : Nat),
      entry.resetAt ≤ now →
      isAllowedStep cfg (some entry) now =
        (true, some { count := 1, resetAt := now + cfg.windowMs })) := by
  refine ⟨fun cfg t0 rest hmax hmem hlen => ?_, fun cfg entry now h1 h2 => ?_,
    fun cfg entry now h => ?_⟩
  · rw [runAllowedCalls_cons]
    have hstep : isAllowedStep cfg none t0 =
        (true, some { count := 1, resetAt := t0 + cfg.windowMs }) := rfl
    rw [hstep]
    have hrun := runAllowedCalls_denies_after_max cfg rest 1 (t0 + cfg.windowMs)
      hmem (by omega) (by omega)
    simp only [hrun]
    obtain ⟨m, hm⟩ : ∃ m, cfg.maxAttempts = m + 1 := ⟨cfg.maxAttempts - 1, by omega⟩
    simp [hlen, hm, List.replicate_succ]
  · have := isAllowedStep_deny cfg entry.count entry.resetAt now h1 h2
    simpa using this
  · simp only [isAllowedStep]
    rw [if_pos (by omega)]

/-- Witness for claim C4 with `maxAttempts = 3`, `windowMs = 10`: four
calls at times 0,1,2,3 yield true, true, true, false; a denied call at
time 5 against a maxed entry leaves it unchanged; a call at the reset
timestamp starts a fresh window with count 1. -/
theorem isAllowed_window_exactly_max_attempts_witness :
    (runAllowedCalls { maxAttempts := 3, windowMs := 10 } none [0, 1, 2, 3]).1 =
      [true, true, true, false] ∧
    isAllowedStep { maxAttempts := 3, windowMs := 10 }
      (some { count := 3, resetAt := 10 }) 5 =
      (false, some { count := 3, resetAt := 10 }) ∧
    isAllowedStep { maxAttempts := 3, windowMs := 10 }
      (some { count := 3, resetAt := 10 }) 10 =
      (true, some { count := 1, resetAt := 20 }) :=
  ⟨by
    have := isAllowed_window_exactly_max_attempts.1
      { maxAttempts := 3, windowMs := 10 } 0 [1, 2, 3] (by decide)
      (by decide) (by decide)
    simpa using this,
    isAllowed_window_exactly_max_attempts.2.1 { maxAttempts := 3, windowMs := 10 }
      { count := 3, resetAt := 10 } 5 (by decide) (by decide),
    isAllowed_window_exactly_max_attempts.2.2 { maxAttempts := 3, windowMs := 10 }
      { count := 3, resetAt := 10 } 10 (by decide)⟩

/-- Claim C5, evaluation at the failing input: for the cold-start URI the
WHATWG URL constructor puts the first component after the double slash
into the HOST and leaves the pathname empty, so `parseDeepLink` finds no
path segment (screen is undefined, only the query map survives) and
`handleDeepLink` returns null instead of navigating to the reset-password
screen with the code parameter. -/
theorem resetPassword_cold_start_yields_no_screen :
    urlParse "shipnative://reset-password?code=abc123" =
      some { protocol := "shipnative:", host := "reset-password", pathname := ""
             search := "code=abc123" } ∧
    parseDeepLink "shipnative://reset-password?code=abc123" =
      some { screen := none, path := none, params := some [("code", "abc123")] } ∧
    handleDeepLink "shipnative://reset-password?code=abc123" = none := by
  refine ⟨?_, ?_, ?_⟩ <;> decide

/-- Claim C6, counterexample: the deep link with an empty token parameter
carries a token that fails the structural check (it is not non-empty, and
the source's own validator rejects it), yet `handleDeepLink` skips
validation for the falsy value and allows navigation instead of yielding
null. -/
theorem handleDeepLink_empty_token_counterexample :
    validateDeepLinkToken "reset-password" (some "") = false ∧
    parseDeepLink "shipnative://auth/reset-password?token=" =
      some { screen := some "reset-password", path := none
             params := some [("token", "")] } ∧
    handleDeepLink "shipnative://auth/reset-password?token=" =
      some { screen := "reset-password", params := some [("token", "")] } := by
  refine ⟨?_, ?_, ?_⟩ <;> decide

/-- Claim C6 (amended): the deep link resolver never throws — an
unparseable input yields null, a URI whose scheme is not the registered
scheme yields null — and a reset-password or verify-email deep link
carrying a NON-EMPTY token parameter that fails the structural length
check yields null (an empty token parameter skips validation and is
allowed through, see the companion claim on token-absent links). -/
theorem deepLink_resolver_total_and_rejects_bad_tokens :
    (∀ url, urlParse url = none →
      parseDeepLink url = none ∧ handleDeepLink url = none) ∧
    (∀ url u, urlParse url = some u → u.protocol ≠ "shipnative:" →
      parseDeepLink url = none ∧ handleDeepLink url = none) ∧
    (∀ (url : String) (p : ParsedDeepLink) (screen token : String),
      parseDeepLink url = some p → p.screen = some screen →
      (screen = "reset-password" ∨ screen = "verify-email") →
      (match p.params with | some ps => paramGet ps "token" | none => none) = some token →
      token ≠ "" → ¬(10 < token.length ∧ token.length < 1000) →
      handleDeepLink url = none) := by
  have hsch : DEEP_LINK_SCHEME ++ ":" = "shipnative:" := rfl
  refine ⟨fun url h => ⟨by simp [parseDeepLink, h], by simp [handleDeepLink, parseDeepLink, h]⟩,
    fun url u h hne => ?_, fun url p screen token hparse hscreen hsens htok hne hlen => ?_⟩
  · have hp : parseDeepLink url = none := by
      simp [parseDeepLink, h, hsch, hne]
    exact ⟨hp, by simp [handleDeepLink, hp]⟩
  · have hval : validateDeepLinkToken screen (some token) = false := by
      rcases hsens with h | h <;> subst h <;>
        simp [validateDeepLinkToken, jsTruthy, hne] <;> omega
    rcases hsens with h | h <;> subst h <;>
      simp [handleDeepLink, hparse, hscreen, htok, jsTruthy, hne, hval]

/-- Witness for the amended claim C6 at concrete inputs: garbage input,
a foreign https scheme, and a short non-empty token each yield null. -/
theorem deepLink_resolver_total_witness :
    handleDeepLink "not a url" = none ∧
    handleDeepLink "https://example.com/reset-password?code=abc123" = none ∧
    handleDeepLink "shipnative://auth/reset-password?token=short" = none :=
  ⟨(deepLink_resolver_total_and_rejects_bad_tokens.1 "not a url" (by decide)).2,
    (deepLink_resolver_total_and_rejects_bad_tokens.2.1
      "https://example.com/reset-password?code=abc123"
      { protocol := "https:", host := "example.com", pathname := "/reset-password"
        search := "code=abc123" } (by decide) (by decide)).2,
    deepLink_resolver_total_and_rejects_bad_tokens.2.2
      "shipnative://auth/reset-password?token=short"
      { screen := some "reset-password", path := none
        params := some [("token", "short")] }
      "reset-password" "short" (by decide) rfl (Or.inl rfl) (by decide)
      (by decide) (by decide)⟩

/-- Claim C7: `isAllowed` never throws (the embedding is a total function
whose catch-all handler is explicit); a load failure makes it return true
(fail open); a denial can only arise from a successful load of an
in-window entry at or above the maximum, so a storage fault can never
cause a request to be denied; and the save outcome never influences the
result (both saving branches return true, and a save throw is caught). -/
theorem isAllowed_never_throws_fails_open :
    (∀ (cfg : RateLimitConfig) (b : StorageBehavior) (now : Nat),
      b.loadResult = Except.error () → isAllowedCaught cfg b now = true) ∧
    (∀ (cfg : RateLimitConfig) (b : StorageBehavior) (now : Nat),
      isAllowedCaught cfg b now = false →
      ∃ entry, b.loadResult = Except.ok (some entry) ∧ now < entry.resetAt ∧
        cfg.maxAttempts ≤ entry.count) ∧
    (∀ (cfg : RateLimitConfig) (load : Except Unit (Option RateLimitEntry))
        (s1 s2 : Bool) (now : Nat),
      isAllowedCaught cfg { loadResult := load, saveThrows := s1 } now =
        isAllowedCaught cfg { loadResult := load, saveThrows := s2 } now) := by
  refine ⟨fun cfg b now h => by simp [isAllowedCaught, h],
    fun cfg b now h => ?_, fun cfg load s1 s2 now => rfl⟩
  unfold isAllowedCaught at h
  rcases hl : b.loadResult with e | stored
  · rw [hl] at h; simp at h
  · rw [hl] at h
    cases stored with
    | none => simp at h
    | some entry =>
      refine ⟨entry, rfl, ?_, ?_⟩ <;> by_cases h1 : now ≥ entry.resetAt <;>
        by_cases h2 : entry.count ≥ cfg.maxAttempts <;> simp [h1, h2] at h <;> omega

/-- Witness for claim C7 at a concrete input: a throwing load (with a
throwing save as well) still allows the request. -/
theorem isAllowed_never_throws_fails_open_witness :
    isAllowedCaught { maxAttempts := 3, windowMs := 10 }
      { loadResult := Except.error (), saveThrows := true } 5 = true :=
  isAllowed_never_throws_fails_open.1 { maxAttempts := 3, windowMs := 10 }
    { loadResult := Except.error (), saveThrows := true } 5 rfl

/-- Claim C10: a URI that parses to a sensitive screen (reset-password or
verify-email) but whose parameter map carries no token entry undergoes no
token validation at all: `handleDeepLink` returns the parsed screen and
parameters and navigation is allowed, even though `validateDeepLinkToken`
itself returns false for a missing token. -/
theorem handleDeepLink_skips_validation_without_token :
    (∀ (url : String) (p : ParsedDeepLink) (screen : String),
      parseDeepLink url = some p → p.screen = some screen →
      (screen = "reset-password" ∨ screen = "verify-email") →
      (match p.params with | some ps => paramGet ps "token" | none => none) = none →
      handleDeepLink url = some { screen := screen, params := p.params }) ∧
    (∀ screen : String, validateDeepLinkToken screen none = false) := by
  refine ⟨fun url p screen hparse hscreen hsens htok => ?_,
    fun screen => by simp [validateDeepLinkToken, jsTruthy]⟩
  rcases hsens with h | h <;> subst h <;>
    simp [handleDeepLink, hparse, hscreen, htok, jsTruthy]

/-- Witness for claim C10 at a concrete input: a reset-password link with
a code parameter but no token navigates without validation. -/
theorem handleDeepLink_skips_validation_witness :
    handleDeepLink "shipnative://auth/reset-password?code=abc123" =
      some { screen := "reset-password", params := some [("code", "abc123")] } :=
  handleDeepLink_skips_validation_without_token.1
    "shipnative://auth/reset-password?code=abc123"
    { screen := some "reset-password", path := none
      params := some [("code", "abc123")] }
    "reset-password" (by decide) rfl (Or.inl rfl) (by decide)

/-- Claim C8: for every behavior of the identity provider (`getSession`
rejecting, `getUser` rejecting, listener registration throwing, any mock
or write outcome — the onboarding fetch catches its own errors inside
`syncOnboardingStatus`), `initialize()` terminates without propagating the
error (the embedding is a total function into a state, every provider
rejection being routed to the catch handler) and leaves the loading flag
false. -/
theorem init_always_terminates_not_loading :
    ∀ (b : ProviderBehavior) (st : AuthStoreState) (db : OnboardingDB) (sub : Bool),
      (initImpl b st db sub).store.loading = false := by
  intro b st db sub
  unfold initImpl
  rcases b.getSession with e | session
  · rfl
  · cases sub with
    | true => rfl
    | false =>
      rcases b.subscribeOutcome with e | u <;> rfl

/-- A call with the subscription guard already set registers nothing and
keeps the guard set. -/
theorem initImpl_from_true (b : ProviderBehavior) (st : AuthStoreState)
    (db : OnboardingDB) :
    (initImpl b st db true).subscribed = true ∧
      (initImpl b st db true).registrations = 0 := by
  unfold initImpl
  rcases b.getSession with e | session
  · exact ⟨rfl, rfl⟩
  · exact ⟨rfl, rfl⟩

/-- A call with the guard empty either registers nothing and leaves the
guard empty, or registers exactly once and sets the guard. -/
theorem initImpl_from_false (b : ProviderBehavior) (st : AuthStoreState)
    (db : OnboardingDB) :
    ((initImpl b st db false).registrations = 0 ∧
        (initImpl b st db false).subscribed = false) ∨
      ((initImpl b st db false).registrations = 1 ∧
        (initImpl b st db false).subscribed = true) := by
  unfold initImpl
  rcases b.getSession with e | session
  · exact Or.inl ⟨rfl, rfl⟩
  · rcases b.subscribeOutcome with e | u
    · exact Or.inl ⟨rfl, rfl⟩
    · exact Or.inr ⟨rfl, rfl⟩

/-- Once the guard is set, a whole sequence of calls registers nothing. -/
theorem runInits_from_true : ∀ (bs : List ProviderBehavior)
    (st : AuthStoreState) (db : OnboardingDB),
    (runInits bs st db true).registrations = 0 ∧
      (runInits bs st db true).subscribed = true := by
  intro bs
  induction bs with
  | nil => intro st db; exact ⟨rfl, rfl⟩
  | cons b rest ih =>
    intro st db
    have h := initImpl_from_true b st db
    constructor
    · simp only [runInits]
      rw [h.1, h.2, (ih _ _).1]
    · simp only [runInits]
      rw [h.1]
      exact (ih _ _).2

/-- From an empty guard, any sequence of calls registers at most once. -/
theorem runInits_from_false : ∀ (bs : List ProviderBehavior)
    (st : AuthStoreState) (db : OnboardingDB),
    (runInits bs st db false).registrations ≤ 1 := by
  intro bs
  induction bs with
  | nil => intro st db; simp [runInits]
  | cons b rest ih =>
    intro st db
    rcases initImpl_from_false b st db with ⟨h0, hs⟩ | ⟨h1, hs⟩
    · simp only [runInits]
      rw [h0, hs]
      simpa using ih _ _
    · simp only [runInits]
      rw [h1, hs]
      simp [(runInits_from_true rest _ _).1]

/-- Claim C9: over every sequence of `initialize()` calls starting with no
listener subscription, at most one auth-state-change listener is ever
registered; once the module-level guard holds a subscription no further
call registers one; and a call on which the provider calls succeed
registers the subscription and sets the guard. -/
theorem init_registers_at_most_one_listener :
    (∀ (bs : List ProviderBehavior) (st : AuthStoreState) (db : OnboardingDB),
      (runInits bs st db false).registrations ≤ 1) ∧
    (∀ (bs : List ProviderBehavior) (st : AuthStoreState) (db : OnboardingDB),
      (runInits bs st db true).registrations = 0) ∧
    (∀ (b : ProviderBehavior) (st : AuthStoreState) (db : OnboardingDB)
        (session : Option AuthSession),
      b.getSession = Except.ok session → b.subscribeOutcome = Except.ok () →
      (initImpl b st db false).registrations = 1 ∧
        (initImpl b st db false).subscribed = true) := by
  refine ⟨runInits_from_false, fun bs st db => (runInits_from_true bs st db).1,
    fun b st db session hg hs => ?_⟩
  unfold initImpl
  rw [hg, hs]
  exact ⟨rfl, rfl⟩

/-- The store's initial state (session null, user null, loading, not
authenticated, onboarding map holding the guest sentinel). -/
def initialAuthState : AuthStoreState :=
  { session := none, user := none, loading := true, isAuthenticated := false
    isEmailConfirmed := false, hasCompletedOnboarding := false
    onboardingStatusByUserId := [("guest", true)] }

/-- Witness for claim C9 at a concrete behavior: a successful anonymous
initialization from the initial state registers the listener exactly once
and sets the guard. -/
theorem init_registers_once_witness :
    (initImpl
        { getSession := Except.ok none, getUser := Except.ok none
          subscribeOutcome := Except.ok (), usingMock := true, writeOk := true }
        initialAuthState (fun _ => none) false).registrations = 1 ∧
      (initImpl
        { getSession := Except.ok none, getUser := Except.ok none
          subscribeOutcome := Except.ok (), usingMock := true, writeOk := true }
        initialAuthState (fun _ => none) false).subscribed = true :=
  init_registers_at_most_one_listener.2.2
    { getSession := Except.ok none, getUser := Except.ok none
      subscribeOutcome := Except.ok (), usingMock := true, writeOk := true }
    initialAuthState (fun _ => none) none rfl rfl
